import Mathlib

/-!
Verification of the Flask audio-transcription server (`src/app.py`) against
its natural-language specification.

The request pipeline of `app.py` is embedded shallowly:

* the module-level `model` handle is an `Option Model` parameter (set once at
  process start, read-only afterwards);
* `allowed_file`, `cleanup_file` and `transcribe_audio` are translated
  directly from their Python definitions;
* the `/transcribe` handler is split into the body of its `try` block
  (`transcribeTry`, which returns either a response/status pair or an
  uncaught exception) and the surrounding `except`/`finally` layer
  (`transcribe`), mirroring the source's control flow;
* the behaviour of the opaque Whisper engine at the staged path is an
  `EngineBehavior` parameter (it either returns a result dict or raises);
* possible runtime faults of the staging/filesystem calls inside the `try`
  block are injection points collected in `Faults`;
* `werkzeug.utils.secure_filename` is third-party code and is passed in as
  an arbitrary sanitizer `sec : String → String`.

The result of a handler call is a `HandlerTrace`: the JSON body and HTTP
status together with the observable staging facts (which temporary file was
created, whether cleanup ran, whether the file ended up deleted, whether the
engine was invoked).
-/

/-- Python whitespace characters stripped by `str.strip()` (ASCII range). -/
def pyIsSpace (c : Char) : Bool :=
  c = ' ' || c = '\t' || c = '\n' || c = '\x0b' || c = '\x0c' || c = '\r'

/-- Embedding of Python `s.strip()`: drop whitespace from both ends. -/
def pyStrip (s : String) : String :=
  ⟨((s.data.dropWhile pyIsSpace).reverse.dropWhile pyIsSpace).reverse⟩

/-- Embedding of Python `s.lower()` (ASCII case folding). -/
def pyLower (s : String) : String :=
  ⟨s.data.map Char.toLower⟩

/-- `ALLOWED_EXTENSIONS = {'wav', 'mp3', 'flac', 'm4a', 'ogg', 'webm'}` (app.py line 17). -/
def ALLOWED_EXTENSIONS : List String :=
  ["wav", "mp3", "flac", "m4a", "ogg", "webm"]

/-- `MAX_CONTENT_LENGTH = 25 * 1024 * 1024` (app.py line 18). -/
def MAX_CONTENT_LENGTH : Nat := 25 * 1024 * 1024

/-- The substring of `s` after the last `'.'`: embedding of
`filename.rsplit('.', 1)[1]` for filenames that contain a `'.'`
(the only context in which app.py evaluates it, guarded by `'.' in filename`). -/
def afterLastDot (s : String) : String :=
  ⟨(s.data.reverse.takeWhile (fun c => c ≠ '.')).reverse⟩

/-- `allowed_file` (app.py lines 32-35):
`'.' in filename and filename.rsplit('.', 1)[1].lower() in ALLOWED_EXTENSIONS`. -/
def allowed_file (filename : String) : Bool :=
  filename.data.contains '.' &&
    ALLOWED_EXTENSIONS.contains (pyLower (afterLastDot filename))

/-- The Whisper model object is opaque; only its presence matters. -/
inductive Model
  | mk
deriving DecidableEq, Repr

/-- What `model.transcribe(file_path)` does on a given request: either return
a result dict (with `"text"` and, optionally, `"language"`), or raise. -/
inductive EngineBehavior
  | returns (text : String) (language : Option String)
  | raises (msg : String)
deriving DecidableEq, Repr

/-- The dict returned by `transcribe_audio` (app.py lines 46-69).
`Option` fields model presence of the corresponding dict keys. -/
structure TAResult where
  success : Bool
  transcription : Option String := none
  language : Option String := none
  error : Option String := none
deriving DecidableEq, Repr

/-- `transcribe_audio` (app.py lines 46-69): short-circuits when the model is
`None`; otherwise calls the engine, trimming the text and defaulting the
language to `"unknown"` on success, and catching any raised fault as a
`Transcription failed: ...` error dict. -/
def transcribe_audio (model : Option Model) (engine : EngineBehavior) : TAResult :=
  match model with
  | none => { success := false, error := some "Whisper model not loaded" }
  | some _ =>
    match engine with
    | .returns text lang =>
        { success := true
          transcription := some (pyStrip text)
          language := some (lang.getD "unknown") }
    | .raises msg =>
        { success := false, error := some ("Transcription failed: " ++ msg) }

/-- `cleanup_file` (app.py lines 37-44), as a filesystem-state transformer:
given whether the file exists and whether `os.unlink` would raise, returns
whether the file still exists afterwards.  The function is total: a deletion
failure is swallowed (logged only), never propagated. -/
def cleanup_file (fileExists : Bool) (unlinkRaises : Bool) : Bool :=
  if fileExists then
    if unlinkRaises then true else false
  else
    false

/-- The parts of a `/transcribe` request the handler inspects: whether the
multipart form has an `'audio'` field, the uploaded filename, and the size
`os.path.getsize` reports for the staged bytes. -/
structure TranscribeRequest where
  hasAudio : Bool
  filename : String
  fileSize : Nat
deriving DecidableEq, Repr

/-- Fault-injection points for the staging/filesystem calls inside the
handler's `try` block: `tempfile.NamedTemporaryFile`, `file.save`,
`os.path.getsize` may each raise. -/
structure Faults where
  stageRaises : Bool := false
  saveRaises : Bool := false
  getsizeRaises : Bool := false
deriving DecidableEq, Repr

/-- A JSON response body; `Option` fields model presence of keys. -/
structure RespBody where
  success : Bool
  error : Option String := none
  transcription : Option String := none
  language : Option String := none
  filename : Option String := none
  file_size_bytes : Option Nat := none
deriving DecidableEq, Repr

/-- Observable outcome of one `/transcribe` call: response body and status,
plus the staging trace. -/
structure HandlerTrace where
  body : RespBody
  status : Nat
  staged : Option String
  cleanupInvoked : Bool
  tempDeleted : Bool
  engineInvoked : Bool
deriving DecidableEq, Repr

/-- `filename = secure_filename(file.filename); if not filename: filename = "audio_file"`
(app.py lines 132-134). -/
def chosen_filename (sec : String → String) (raw : String) : String :=
  let filename := sec raw
  if filename = "" then "audio_file" else filename

/-- The body of the `try` block of the `/transcribe` handler
(app.py lines 100-163).  Returns the response/status pair (or the uncaught
exception, `.error`), together with the value of `temp_file_path` at exit and
whether `transcribe_audio` was invoked.  `tmpBase` is the unique name chosen
by `tempfile.NamedTemporaryFile`; the staged path is `tmpBase` plus the
`_{filename}` suffix. -/
def transcribeTry (model : Option Model) (sec : String → String) (tmpBase : String)
    (engine : EngineBehavior) (faults : Faults) (req : TranscribeRequest) :
    Except Unit (RespBody × Nat) × Option String × Bool :=
  match model with
  | none =>
      (.ok ({ success := false, error := some "Transcription service unavailable" }, 503),
       none, false)
  | some m =>
    if !req.hasAudio then
      (.ok ({ success := false,
              error := some "No audio file provided. Use 'audio' as the form field name." }, 400),
       none, false)
    else if req.filename = "" then
      (.ok ({ success := false, error := some "No file selected" }, 400), none, false)
    else if !allowed_file req.filename then
      (.ok ({ success := false,
              error := some ("File type not supported. Allowed formats: " ++
                String.intercalate ", " ALLOWED_EXTENSIONS) }, 400),
       none, false)
    else
      let filename := chosen_filename sec req.filename
      if faults.stageRaises then
        (.error (), none, false)
      else
        let temp_file_path := tmpBase ++ "_" ++ filename
        if faults.saveRaises then
          (.error (), some temp_file_path, false)
        else if faults.getsizeRaises then
          (.error (), some temp_file_path, false)
        else
          let result := transcribe_audio (some m) engine
          if result.success then
            (.ok ({ success := true
                    transcription := result.transcription
                    language := some (result.language.getD "unknown")
                    filename := some filename
                    file_size_bytes := some req.fileSize }, 200),
             some temp_file_path, true)
          else
            (.ok ({ success := false, error := result.error }, 500),
             some temp_file_path, true)

/-- The whole `/transcribe` handler (app.py lines 95-176): the `try` body,
the generic `except` clause mapping any uncaught exception to a 500 with
"Internal server error occurred", and the `finally` clause that runs
`cleanup_file` whenever `temp_file_path` was set. -/
def transcribe (model : Option Model) (sec : String → String) (tmpBase : String)
    (engine : EngineBehavior) (faults : Faults) (unlinkRaises : Bool)
    (req : TranscribeRequest) : HandlerTrace :=
  let res := transcribeTry model sec tmpBase engine faults req
  let bs : RespBody × Nat :=
    match res.1 with
    | .ok p => p
    | .error _ => ({ success := false, error := some "Internal server error occurred" }, 500)
  match res.2.1 with
  | none =>
      { body := bs.1, status := bs.2, staged := none,
        cleanupInvoked := false, tempDeleted := false, engineInvoked := res.2.2 }
  | some p =>
      { body := bs.1, status := bs.2, staged := some p, cleanupInvoked := true,
        tempDeleted := !(cleanup_file true unlinkRaises), engineInvoked := res.2.2 }

/-- Body of the registered 413 error handler `file_too_large`
(app.py lines 178-184). -/
def file_too_large : RespBody × Nat :=
  ({ success := false,
     error := some ("File too large. Maximum size allowed: " ++
       toString (MAX_CONTENT_LENGTH / (1024 * 1024)) ++ "MB") }, 413)

/-- Modelled from the spec: Flask/Werkzeug enforce `app.config['MAX_CONTENT_LENGTH']`
upstream of the handler ("Declared content length is enforced upstream at a
fixed ceiling (25 MiB); exceeding it is a distinct failure mapped to HTTP 413").
That enforcement code is not in `src/`; only the ceiling constant and the 413
handler are.  A request whose declared content length exceeds the ceiling is
answered by the registered 413 handler and never reaches `transcribe`. -/
def handleTranscribeRequest (contentLength : Nat) (model : Option Model)
    (sec : String → String) (tmpBase : String) (engine : EngineBehavior)
    (faults : Faults) (unlinkRaises : Bool) (req : TranscribeRequest) : HandlerTrace :=
  if contentLength > MAX_CONTENT_LENGTH then
    { body := file_too_large.1, status := file_too_large.2, staged := none,
      cleanupInvoked := false, tempDeleted := false, engineInvoked := false }
  else
    transcribe model sec tmpBase engine faults unlinkRaises req

/-- Body of the `/health` endpoint (app.py lines 71-78). -/
structure HealthBody where
  status : String
  whisper_model : String
  model_loaded : Bool
deriving DecidableEq, Repr

/-- `WHISPER_MODEL = os.environ.get('WHISPER_MODEL', 'base')` (app.py line 19). -/
def WHISPER_MODEL (env : Option String) : String :=
  env.getD "base"

/-- `health_check` (app.py lines 71-78): reads only the model handle and the
configured model identifier. -/
def health_check (model : Option Model) (whisperModel : String) : HealthBody × Nat :=
  ({ status := "healthy", whisper_model := whisperModel,
     model_loaded := model.isSome }, 200)

/-! ## Supporting lemmas -/

/-- Two strings with the same character data are equal. -/
lemma str_ext (s t : String) (h : s.data = t.data) : s = t := by
  cases s; cases t; exact congrArg String.mk h

/-- Reversal preserves `List.contains`. -/
lemma contains_reverse (l : List Char) (c : Char) : l.reverse.contains c = l.contains c := by
  simp [List.contains]

/-- A character list containing a dot splits at its first dot, with
`takeWhile` returning the dot-free part before it. -/
lemma contains_dot_decomp (l : List Char) (h : l.contains '.' = true) :
    ∃ t r, l = t ++ '.' :: r ∧ l.takeWhile (fun c => c ≠ '.') = t ∧
      t.contains '.' = false := by
  induction l with
  | nil => simp [List.contains] at h
  | cons c rest ih =>
    by_cases hc : c = '.'
    · subst hc
      exact ⟨[], rest, rfl, by simp, by simp [List.contains]⟩
    · have h' : rest.contains '.' = true := by
        simp [List.contains] at h ⊢
        rcases h with h | h
        · exact absurd h.symm hc
        · exact h
      obtain ⟨t, r, h1, h2, h3⟩ := ih h'
      refine ⟨c :: t, r, by rw [h1, List.cons_append], ?_, ?_⟩
      · simpa [List.takeWhile_cons, hc] using h2
      · simp [List.contains] at h3 ⊢
        exact ⟨fun he => hc he.symm, h3⟩

/-- `takeWhile` over an append stops exactly at the first failing element. -/
lemma takeWhile_append_stop (p : Char → Bool) (l₁ : List Char) (c : Char) (l₂ : List Char)
    (h1 : ∀ x ∈ l₁, p x = true) (h2 : p c = false) :
    (l₁ ++ c :: l₂).takeWhile p = l₁ := by
  induction l₁ with
  | nil => simp [List.takeWhile_cons, h2]
  | cons a as ih =>
    have ha : p a = true := h1 a (by simp)
    simp [List.takeWhile_cons, ha]
    exact ih fun x hx => h1 x (by simp [hx])

/-- No engine fault message makes the invoker's failure text collide with the
model-not-loaded error text. -/
lemma transcription_failed_ne (msg : String) :
    ("Transcription failed: " ++ msg) ≠ "Whisper model not loaded" := by
  intro h
  have h2 : ("Transcription failed: " ++ msg).data = "Whisper model not loaded".data := by
    rw [h]
  rw [String.data_append] at h2
  have h3 : "Transcription failed: ".data = 'T' :: "ranscription failed: ".data := by decide
  have h4 : "Whisper model not loaded".data = 'W' :: "hisper model not loaded".data := by decide
  rw [h3, h4] at h2
  simp at h2

/-! ## Claim theorems -/

/-- Claim C1: for every `/transcribe` request in which a staged temporary
file was created, `cleanup_file` is invoked on it before the handler returns,
on every exit path (success, invoker failure, and any unexpected exception),
the file is actually deleted whenever deletion itself does not fail, and a
failure during deletion is swallowed: it changes neither the response body,
nor the status, nor which file was staged. -/
theorem transcribe_cleanup_unconditional (model : Option Model) (sec : String → String)
    (tmpBase : String) (engine : EngineBehavior) (faults : Faults) (unlinkRaises : Bool)
    (req : TranscribeRequest) :
    (transcribe model sec tmpBase engine faults unlinkRaises req).cleanupInvoked =
      (transcribe model sec tmpBase engine faults unlinkRaises req).staged.isSome ∧
    (transcribe model sec tmpBase engine faults unlinkRaises req).tempDeleted =
      ((transcribe model sec tmpBase engine faults unlinkRaises req).staged.isSome
        && !unlinkRaises) ∧
    (transcribe model sec tmpBase engine faults unlinkRaises req).body =
      (transcribe model sec tmpBase engine faults false req).body ∧
    (transcribe model sec tmpBase engine faults unlinkRaises req).status =
      (transcribe model sec tmpBase engine faults false req).status ∧
    (transcribe model sec tmpBase engine faults unlinkRaises req).staged =
      (transcribe model sec tmpBase engine faults false req).staged := by
  unfold transcribe
  cases h : (transcribeTry model sec tmpBase engine faults req).2.1 <;>
    simp [h, cleanup_file]

/-- Claim C2: when the model handle is unloaded, every `/transcribe` request
is answered with the `success:false` service-unavailable body and HTTP 503,
no temporary file is staged and the engine is never invoked, regardless of
the request contents (including requests that would also fail validation). -/
theorem transcribe_unloaded_503 (sec : String → String) (tmpBase : String)
    (engine : EngineBehavior) (faults : Faults) (unlinkRaises : Bool)
    (req : TranscribeRequest) :
    transcribe none sec tmpBase engine faults unlinkRaises req =
      { body := { success := false, error := some "Transcription service unavailable" },
        status := 503, staged := none, cleanupInvoked := false,
        tempDeleted := false, engineInvoked := false } := rfl

/-- Claim C3, counterexample: a request without the `'audio'` field arriving
while the model handle is unloaded is answered 503, not 400, so the claim as
stated (over every request) fails. -/
theorem missing_field_unloaded_cex :
    (transcribe none (fun s => s) "tmp" (.returns "x" none) {} false
        ⟨false, "sample.wav", 0⟩).status = 503 ∧
    (transcribe none (fun s => s) "tmp" (.returns "x" none) {} false
        ⟨false, "sample.wav", 0⟩).status ≠ 400 := by
  exact ⟨rfl, by decide⟩

/-- Claim C3 as amended: when the model handle is loaded, every `/transcribe`
request whose multipart form lacks the `'audio'` field is answered with a
`success:false` body and HTTP 400, and nothing is staged. -/
theorem missing_field_400 (m : Model) (sec : String → String) (tmpBase : String)
    (engine : EngineBehavior) (faults : Faults) (unlinkRaises : Bool)
    (filename : String) (fileSize : Nat) :
    transcribe (some m) sec tmpBase engine faults unlinkRaises
        ⟨false, filename, fileSize⟩ =
      { body := { success := false,
                  error := some "No audio file provided. Use 'audio' as the form field name." },
        status := 400, staged := none, cleanupInvoked := false,
        tempDeleted := false, engineInvoked := false } := rfl

/-- Claim C4, counterexample: `notes.txt` fails the extension check, yet a
request uploading it while the model handle is unloaded is answered 503, not
400, so the unconditional rejection part of the claim fails as stated. -/
theorem bad_extension_unloaded_cex :
    allowed_file "notes.txt" = false ∧
    (transcribe none (fun s => s) "tmp" (.returns "x" none) {} false
        ⟨true, "notes.txt", 5⟩).status = 503 ∧
    (transcribe none (fun s => s) "tmp" (.returns "x" none) {} false
        ⟨true, "notes.txt", 5⟩).status ≠ 400 := by
  refine ⟨by decide, rfl, by decide⟩

/-- Claim C4 as amended: the extension check accepts a filename iff it
decomposes as `a ++ "." ++ b` with `b` dot-free (i.e. `b` is the substring
after the final dot) and `b` lowercased in the allow-set; and, when the model
handle is loaded, every uploaded filename failing the check is answered with
a `success:false` body and HTTP 400, with no staging and no cleanup,
regardless of the file's content, size or the engine's behaviour. -/
theorem extension_check_and_rejection :
    (∀ f : String, allowed_file f = true ↔
      ∃ a b : String, f = a ++ "." ++ b ∧ b.data.contains '.' = false ∧
        ALLOWED_EXTENSIONS.contains (pyLower b) = true) ∧
    (∀ (m : Model) (sec : String → String) (tmpBase : String) (engine : EngineBehavior)
        (faults : Faults) (unlinkRaises : Bool) (f : String) (n : Nat),
      allowed_file f = false →
        (transcribe (some m) sec tmpBase engine faults unlinkRaises ⟨true, f, n⟩).status = 400 ∧
        (transcribe (some m) sec tmpBase engine faults unlinkRaises ⟨true, f, n⟩).body.success
          = false ∧
        (transcribe (some m) sec tmpBase engine faults unlinkRaises ⟨true, f, n⟩).staged = none ∧
        (transcribe (some m) sec tmpBase engine faults unlinkRaises ⟨true, f, n⟩).cleanupInvoked
          = false) := by
  constructor
  · intro f
    constructor
    · intro h
      rw [allowed_file, Bool.and_eq_true] at h
      obtain ⟨h1, h2⟩ := h
      obtain ⟨t, r, hdec, htake, htnd⟩ :=
        contains_dot_decomp f.data.reverse (by rw [contains_reverse]; exact h1)
      have hext : afterLastDot f = ⟨t.reverse⟩ := by
        rw [afterLastDot]
        exact congrArg String.mk (congrArg List.reverse htake)
      refine ⟨⟨r.reverse⟩, ⟨t.reverse⟩, ?_, ?_, ?_⟩
      · apply str_ext
        have hfd : f.data = (t ++ '.' :: r).reverse := by
          rw [← hdec, List.reverse_reverse]
        rw [hfd]
        simp [List.reverse_append]
      · rw [contains_reverse]; exact htnd
      · rw [← hext]; exact h2
    · rintro ⟨a, b, hf, hb, hext⟩
      have hdata : f.data = a.data ++ '.' :: b.data := by
        rw [hf]; simp
      have hball : ∀ x ∈ b.data.reverse, (decide (x ≠ '.')) = true := by
        intro x hx
        rw [List.mem_reverse] at hx
        simp [List.contains] at hb
        simp only [ne_eq, decide_eq_true_eq]
        intro hxe
        exact hb (hxe ▸ hx)
      have hrev : f.data.reverse = b.data.reverse ++ '.' :: a.data.reverse := by
        rw [hdata]
        simp [List.reverse_append]
      have htake : afterLastDot f = b := by
        rw [afterLastDot, hrev,
          takeWhile_append_stop _ _ '.' _ hball (by simp), List.reverse_reverse]
      rw [allowed_file, Bool.and_eq_true]
      constructor
      · have hm : '.' ∈ f.data := by rw [hdata]; simp
        simp [List.contains, hm]
      · rw [htake]; exact hext
  · intro m sec tmpBase engine faults unlinkRaises f n hallow
    by_cases hf : f = "" <;>
      simp [transcribe, transcribeTry, hf, hallow]

/-- Witness for claim C4's amended theorem, at the spec's concrete scenario B
input `notes.txt` with a loaded model. -/
theorem extension_check_and_rejection_witness :
    allowed_file "notes.txt" = false ∧
    (transcribe (some .mk) (fun s => s) "tmp" (.returns "x" none) {} false
        ⟨true, "notes.txt", 5⟩).status = 400 ∧
    (transcribe (some .mk) (fun s => s) "tmp" (.returns "x" none) {} false
        ⟨true, "notes.txt", 5⟩).body.success = false ∧
    (transcribe (some .mk) (fun s => s) "tmp" (.returns "x" none) {} false
        ⟨true, "notes.txt", 5⟩).staged = none ∧
    (transcribe (some .mk) (fun s => s) "tmp" (.returns "x" none) {} false
        ⟨true, "notes.txt", 5⟩).cleanupInvoked = false := by
  refine ⟨by decide, ?_⟩
  exact extension_check_and_rejection.2 .mk (fun s => s) "tmp" (.returns "x" none) {} false
    "notes.txt" 5 (by decide)

/-- Claim C5: whenever the engine's transcription call raises a fault, the
invoker captures it as a failure result instead of propagating it, and on
any request in which the engine was actually invoked the handler returns a
`success:false` body with the `Transcription failed: ...` error text and
HTTP 500, with the staged file still cleaned up (deleted unless deletion
itself fails). -/
theorem engine_fault_500 (model : Option Model) (sec : String → String) (tmpBase : String)
    (faults : Faults) (unlinkRaises : Bool) (req : TranscribeRequest) (msg : String)
    (h : (transcribe model sec tmpBase (.raises msg) faults unlinkRaises req).engineInvoked
          = true) :
    (∀ m : Model, transcribe_audio (some m) (.raises msg) =
      { success := false, error := some ("Transcription failed: " ++ msg) }) ∧
    (transcribe model sec tmpBase (.raises msg) faults unlinkRaises req).status = 500 ∧
    (transcribe model sec tmpBase (.raises msg) faults unlinkRaises req).body.success = false ∧
    (transcribe model sec tmpBase (.raises msg) faults unlinkRaises req).body.error =
      some ("Transcription failed: " ++ msg) ∧
    (transcribe model sec tmpBase (.raises msg) faults unlinkRaises req).staged.isSome = true ∧
    (transcribe model sec tmpBase (.raises msg) faults unlinkRaises req).cleanupInvoked = true ∧
    (transcribe model sec tmpBase (.raises msg) faults unlinkRaises req).tempDeleted
      = !unlinkRaises := by
  refine ⟨fun m => rfl, ?_⟩
  cases model with
  | none => simp [transcribe, transcribeTry] at h
  | some m =>
    rcases req with ⟨ha, f, n⟩
    rcases faults with ⟨fstage, fsave, fgets⟩
    cases ha <;> cases fstage <;> cases fsave <;> cases fgets <;>
      by_cases hf : f = "" <;> by_cases hal : allowed_file f <;>
        simp [transcribe, transcribeTry, transcribe_audio, cleanup_file, hf, hal] at h ⊢

/-- Witness for claim C5's theorem: a valid upload with a loaded model and a
raising engine reaches the engine and is answered 500. -/
theorem engine_fault_500_witness :
    (transcribe (some .mk) (fun s => s) "tmp" (.raises "boom") {} false
        ⟨true, "sample.wav", 7⟩).engineInvoked = true ∧
    (transcribe (some .mk) (fun s => s) "tmp" (.raises "boom") {} false
        ⟨true, "sample.wav", 7⟩).status = 500 := by
  refine ⟨by decide, ?_⟩
  exact (engine_fault_500 (some .mk) (fun s => s) "tmp" {} false
    ⟨true, "sample.wav", 7⟩ "boom" (by decide)).2.1

/-- Claim C6: on every successful engine result the invoker returns the
transcribed text with surrounding whitespace stripped and defaults the
language to `"unknown"` when the engine reports none; and in the spec's
concrete scenario A (valid `sample.wav`, loaded model, engine returning
text `"  hello world  "` and language `"en"`, sanitizer leaving the name
unchanged) the handler responds 200 with transcription `"hello world"`,
language `"en"`, the filename and the staged file's size. -/
theorem invoker_success_trimmed :
    (∀ (m : Model) (text : String) (lang : Option String),
      transcribe_audio (some m) (.returns text lang) =
        { success := true, transcription := some (pyStrip text),
          language := some (lang.getD "unknown") }) ∧
    (∀ (m : Model) (sec : String → String) (tmpBase : String) (n : Nat),
      sec "sample.wav" = "sample.wav" →
      transcribe (some m) sec tmpBase (.returns "  hello world  " (some "en")) {} false
          ⟨true, "sample.wav", n⟩ =
        { body := { success := true, transcription := some "hello world",
                    language := some "en", filename := some "sample.wav",
                    file_size_bytes := some n },
          status := 200, staged := some (tmpBase ++ "_" ++ "sample.wav"),
          cleanupInvoked := true, tempDeleted := true, engineInvoked := true }) := by
  refine ⟨fun m text lang => rfl, ?_⟩
  intro m sec tmpBase n hsec
  simp [transcribe, transcribeTry, transcribe_audio, chosen_filename, hsec, cleanup_file,
    (by decide : allowed_file "sample.wav" = true),
    (by decide : pyStrip "  hello world  " = "hello world")]

/-- Witness for claim C6's theorem at the identity sanitizer and size 42. -/
theorem invoker_success_trimmed_witness :
    transcribe (some .mk) (fun s => s) "tmp" (.returns "  hello world  " (some "en")) {} false
        ⟨true, "sample.wav", 42⟩ =
      { body := { success := true, transcription := some "hello world",
                  language := some "en", filename := some "sample.wav",
                  file_size_bytes := some 42 },
        status := 200, staged := some ("tmp" ++ "_" ++ "sample.wav"),
        cleanupInvoked := true, tempDeleted := true, engineInvoked := true } :=
  invoker_success_trimmed.2 .mk (fun s => s) "tmp" 42 rfl

/-- Claim C7: the size ceiling is the fixed constant 25 MiB, and every
request whose declared content length exceeds it is answered by the
registered 413 handler with a `success:false` body, with no staging, no
cleanup and no engine call. -/
theorem payload_too_large_413 :
    MAX_CONTENT_LENGTH = 25 * 1024 * 1024 ∧
    (∀ (contentLength : Nat) (model : Option Model) (sec : String → String)
        (tmpBase : String) (engine : EngineBehavior) (faults : Faults)
        (unlinkRaises : Bool) (req : TranscribeRequest),
      contentLength > MAX_CONTENT_LENGTH →
      handleTranscribeRequest contentLength model sec tmpBase engine faults unlinkRaises req =
        { body := { success := false,
                    error := some "File too large. Maximum size allowed: 25MB" },
          status := 413, staged := none, cleanupInvoked := false,
          tempDeleted := false, engineInvoked := false }) := by
  refine ⟨rfl, ?_⟩
  intro contentLength model sec tmpBase engine faults unlinkRaises req h
  rw [handleTranscribeRequest, if_pos h]
  simp [file_too_large]
  decide

/-- Witness for claim C7's theorem at the spec's concrete scenario C: a
30 MiB upload is answered 413. -/
theorem payload_too_large_413_witness :
    30 * 1024 * 1024 > MAX_CONTENT_LENGTH ∧
    (handleTranscribeRequest (30 * 1024 * 1024) (some .mk) (fun s => s) "tmp"
        (.returns "x" none) {} false ⟨true, "sample.wav", 5⟩).status = 413 := by
  refine ⟨by decide, ?_⟩
  rw [(payload_too_large_413.2 (30 * 1024 * 1024) (some .mk) (fun s => s) "tmp"
    (.returns "x" none) {} false ⟨true, "sample.wav", 5⟩ (by decide))]

/-- Claim C8: for every uploaded filename that passes validation (with a
loaded model and staging succeeding), the staged temporary path embeds the
sanitized filename, with the literal `"audio_file"` substituted when
sanitization yields the empty string, and the success response's filename
field carries that same sanitized-or-fallback name. -/
theorem sanitized_filename_used (m : Model) (sec : String → String) (tmpBase : String)
    (engine : EngineBehavior) (faults : Faults) (unlinkRaises : Bool)
    (f : String) (n : Nat)
    (hallow : allowed_file f = true) (hstage : faults.stageRaises = false) :
    (transcribe (some m) sec tmpBase engine faults unlinkRaises ⟨true, f, n⟩).staged =
      some (tmpBase ++ "_" ++ (if sec f = "" then "audio_file" else sec f)) ∧
    ((transcribe (some m) sec tmpBase engine faults unlinkRaises ⟨true, f, n⟩).status = 200 →
      (transcribe (some m) sec tmpBase engine faults unlinkRaises ⟨true, f, n⟩).body.filename =
        some (if sec f = "" then "audio_file" else sec f)) := by
  have hf : ¬ f = "" := by
    intro hf
    rw [hf] at hallow
    exact absurd hallow (by decide)
  rcases faults with ⟨fstage, fsave, fgets⟩
  simp only at hstage
  subst hstage
  cases fsave <;> cases fgets <;> cases engine <;>
    simp [transcribe, transcribeTry, transcribe_audio, chosen_filename, cleanup_file, hf, hallow]

/-- Witness for claim C8's theorem with a sanitizer that erases the whole
filename: staging proceeds under the fallback name `audio_file` and the
success response echoes it. -/
theorem sanitized_filename_used_witness :
    allowed_file "sample.wav" = true ∧
    (transcribe (some .mk) (fun _ => "") "tmp" (.returns "x" none) {} false
        ⟨true, "sample.wav", 5⟩).staged = some ("tmp" ++ "_" ++ "audio_file") ∧
    (transcribe (some .mk) (fun _ => "") "tmp" (.returns "x" none) {} false
        ⟨true, "sample.wav", 5⟩).body.filename = some "audio_file" := by
  have h := sanitized_filename_used .mk (fun _ => "") "tmp" (.returns "x" none) {} false
    "sample.wav" 5 (by decide) rfl
  refine ⟨by decide, by simpa using h.1, by simpa using h.2 (by decide)⟩

/-- Claim C9: `/health` is deterministic in the process state: for a fixed
model-handle lifetime and configured model identifier it always returns the
body with status `"healthy"`, the configured identifier and the handle's
loadedness, with HTTP 200 — so two calls with no intervening state change
return equal responses. -/
theorem health_check_deterministic (model : Option Model) (whisperModel : String) :
    health_check model whisperModel =
      ({ status := "healthy", whisper_model := whisperModel,
         model_loaded := model.isSome }, 200) := rfl

/-- Claim C10: the invoker's model-not-loaded branch is unreachable from the
`/transcribe` handler: no response of the handler, on any request, model
state, engine behaviour or fault combination, ever carries the error text
`"Whisper model not loaded"`. -/
theorem model_not_loaded_branch_unreachable (model : Option Model) (sec : String → String)
    (tmpBase : String) (engine : EngineBehavior) (faults : Faults) (unlinkRaises : Bool)
    (req : TranscribeRequest) :
    (transcribe model sec tmpBase engine faults unlinkRaises req).body.error ≠
      some "Whisper model not loaded" := by
  cases model with
  | none => simp [transcribe, transcribeTry]
  | some m =>
    have hmsg : ¬("File type not supported. Allowed formats: " ++
        String.intercalate ", " ALLOWED_EXTENSIONS = "Whisper model not loaded") := by decide
    rcases req with ⟨ha, f, n⟩
    rcases faults with ⟨fstage, fsave, fgets⟩
    cases ha <;> cases fstage <;> cases fsave <;> cases fgets <;> cases engine <;>
      by_cases hf : f = "" <;> by_cases hal : allowed_file f <;>
        simp [transcribe, transcribeTry, transcribe_audio, cleanup_file, hf, hal,
          transcription_failed_ne, hmsg]

/-- Witness for claim C10's theorem at a concrete request with a raising
engine. -/
theorem model_not_loaded_branch_unreachable_witness :
    (transcribe (some .mk) (fun s => s) "tmp" (.raises "x") {} false
        ⟨true, "a.wav", 3⟩).body.error ≠ some "Whisper model not loaded" :=
  model_not_loaded_branch_unreachable (some .mk) (fun s => s) "tmp" (.raises "x") {} false
    ⟨true, "a.wav", 3⟩
